import Mathlib

/-!
A shallow embedding of the QR-scan/login pipeline of the
`wuthering-waves-scancer` repository, together with theorems settling the
frozen claims about it.  Pure logic is translated directly from the Python
sources; the external world (screen captures, the two QR decoder backends,
the HTTP layer, wall-clock time) is passed in as explicit oracle arguments.
Machine floats of the ROI predictor are modelled with exact rationals.
-/

/-- `strContains s pat` models Python's substring test `pat in s`. -/
def strContains (s pat : String) : Bool :=
  decide (pat.toList <:+: s.toList)

namespace AIQRScanner

/-- The marker acceptance test of `AIQRScanner.try_decode_qr`
(`src/utils/ai_qr_scanner.py` lines 385 and 396):
`"G152#KURO" in qr_data or "KURO" in qr_data`. -/
def acceptQR (qr_data : String) : Bool :=
  strContains qr_data "G152#KURO" || strContains qr_data "KURO"

/-- `AIQRScanner.try_decode_qr` (`src/utils/ai_qr_scanner.py:368-400`).
`wechatRes` is what the WeChat detector produced for the image (`none` when
the detector is absent, decoded nothing, or threw); `pyzbarRes` likewise for
pyzbar.  A decoded string is returned only if it passes the marker test;
a WeChat result failing the test falls through to the pyzbar branch. -/
def try_decode_qr (wechatRes pyzbarRes : Option String) : Option String :=
  match wechatRes with
  | some qr_data =>
    if acceptQR qr_data then some qr_data
    else
      match pyzbarRes with
      | some qr2 => if acceptQR qr2 then some qr2 else none
      | none => none
  | none =>
    match pyzbarRes with
    | some qr2 => if acceptQR qr2 then some qr2 else none
    | none => none

end AIQRScanner

namespace QRScanner

/-- `QRScanner.try_decode_qr` (`src/utils/qr_scanner.py:118-131`): pyzbar
only, same marker test. -/
def try_decode_qr (pyzbarRes : Option String) : Option String :=
  match pyzbarRes with
  | some qr_data =>
    if AIQRScanner.acceptQR qr_data then some qr_data else none
  | none => none

end QRScanner

namespace AIQRScanner

/-- The image candidates `AIQRScanner.scan_region` can feed to the decoders:
the raw capture, the aspect-preserving 1280x720 resize, the 40% downscale
(`src/utils/ai_qr_scanner.py:527-531`), and the two enhancement variants
produced by `enhance_image_ai` (`ai_qr_scanner.py:304-341`). -/
inductive Candidate
  | original
  | resized1280
  | down40
  | binarized
  | superRes
deriving DecidableEq, Repr

/-- The three cheap candidates raced in the first pass
(`ai_qr_scanner.py:527-531`, in source order). -/
def cheapCandidates : List Candidate :=
  [.original, .resized1280, .down40]

/-- The enhancement candidates actually decoded by the second pass:
`enhance_image_ai` returns `[input, binarized] ++ (superRes if the SR model
is loaded)` and `scan_region` skips index 0 (`ai_qr_scanner.py:562`). -/
def enhancedCandidates (srLoaded : Bool) : List Candidate :=
  [.binarized] ++ (if srLoaded then [.superRes] else [])

/-- Raw decoder outputs for one image: what the WeChat detector and pyzbar
each produced (the oracle argument of the embedding). -/
def DecodeOracle : Type :=
  Candidate → Option String × Option String

/-- Decoding one candidate: `try_decode_qr` applied to the two backend
outputs for that image. -/
def decodeCandidate (oracle : DecodeOracle) (c : Candidate) : Option String :=
  try_decode_qr (oracle c).1 (oracle c).2

/-- The decode race of `try_decode_parallel` (`ai_qr_scanner.py:402-429`):
the race succeeds iff some submitted candidate decodes, and the winning
payload is one of the successful candidates' payloads.  With a
deterministic per-candidate oracle the completion order only permutes which
successful candidate wins; the embedding resolves the race in list order. -/
def raceFirst (oracle : DecodeOracle) : List Candidate → Option String
  | [] => none
  | c :: cs =>
    match decodeCandidate oracle c with
    | some r => some r
    | none => raceFirst oracle cs

/-- One observable step of `scan_region`:  a parallel race over a candidate
list, the on-demand computation of the enhancement candidates, or one
sequential decode attempt on a single enhancement candidate. -/
inductive ScanOp
  | race (cs : List Candidate)
  | computeEnhanced (srLoaded : Bool)
  | seqTry (c : Candidate)
deriving DecidableEq, Repr

/-- The sequential second pass of `scan_region`
(`ai_qr_scanner.py:559-577`): try each enhancement candidate in order,
stopping at the first success. -/
def seqPass (oracle : DecodeOracle) : List Candidate → List ScanOp × Option String
  | [] => ([], none)
  | c :: cs =>
    match decodeCandidate oracle c with
    | some r => ([.seqTry c], some r)
    | none =>
      let rest := seqPass oracle cs
      (.seqTry c :: rest.1, rest.2)

/-- `AIQRScanner.scan_region` (`src/utils/ai_qr_scanner.py:512-577`), decode
phase: first race the three cheap candidates; only if that fails, compute
the enhancement candidates (`enhance_image_ai`) and decode them
sequentially.  Returns the trace of decode operations together with the
decoded payload, if any. -/
def scan_region (oracle : DecodeOracle) (srLoaded : Bool) :
    List ScanOp × Option String :=
  match raceFirst oracle cheapCandidates with
  | some r => ([.race cheapCandidates], some r)
  | none =>
    let second := seqPass oracle (enhancedCandidates srLoaded)
    (.race cheapCandidates :: .computeEnhanced srLoaded :: second.1, second.2)

end AIQRScanner

namespace ScanWindow

/-- Python `qr_code[-24:]` for the payloads the code applies it to
(`len(qr_code) >= 24`). -/
def ticketOf (qr_code : String) : String :=
  qr_code.drop (qr_code.length - 24)

/-- The mutable fields of `ScanWindow` that `scan_qr_code` reads or writes
(`src/ui/scan_window.py:70-76`). -/
structure State where
  last_qr_code : Option String
  processing_qr : Bool
  last_ticket : String
deriving DecidableEq, Repr

/-- `ScanWindow.start_scanning` (`src/ui/scan_window.py:131-137`): clears
the last ticket, the processing flag and the last decoded payload. -/
def start_scanning (st : State) : State :=
  { st with last_ticket := "", processing_qr := false, last_qr_code := none }

/-- `ScanWindow.reset_processing` (`src/ui/scan_window.py:199-207`): clears
the processing flag and the last payload but deliberately keeps
`last_ticket`. -/
def reset_processing (st : State) : State :=
  { st with processing_qr := false, last_qr_code := none }

/-- One tick of `ScanWindow.scan_qr_code` (`src/ui/scan_window.py:144-197`).
`scanned` is what `qr_scanner.scan_region` returned for this tick.  The
second component is the payload emitted through the `qr_detected` signal,
if any. -/
def scan_qr_code (st : State) (scanned : Option String) :
    State × Option String :=
  if st.processing_qr then (st, none)
  else
    match scanned with
    | none => (st, none)
    | some qr_code =>
      if 24 ≤ qr_code.length then
        let ticket := ticketOf qr_code
        if ticket = st.last_ticket then (st, none)
        else
          ({ last_ticket := ticket, processing_qr := true,
             last_qr_code := some qr_code }, some qr_code)
      else
        ({ st with processing_qr := true, last_qr_code := some qr_code },
         some qr_code)

/-- An event a running scan window can experience: a scan tick (with the
decoder's result), the 3-second `reset_processing` timer, or a scan
restart. -/
inductive Event
  | tick (scanned : Option String)
  | resetTimer
  | restart
deriving Repr

/-- Apply one event, recording the emitted payload. -/
def stepEvent (st : State) : Event → State × Option String
  | .tick scanned => scan_qr_code st scanned
  | .resetTimer => (reset_processing st, none)
  | .restart => (start_scanning st, none)

/-- Run a list of events from a state, collecting every payload emitted
through `qr_detected`. -/
def runEvents (st : State) : List Event → State × List String
  | [] => (st, [])
  | e :: es =>
    let r := stepEvent st e
    let rest := runEvents r.1 es
    (rest.1, (match r.2 with | some q => [q] | none => []) ++ rest.2)

end ScanWindow

namespace SmartROIDetector

/-- One history entry of `SmartROIDetector.position_history`:
`(x, y, width, height, timestamp)`.  Coordinates are the integers passed to
`add_detection`; the timestamp (Python `time.time()`) is modelled as an
exact rational. -/
structure Pos where
  x : ℤ
  y : ℤ
  w : ℤ
  h : ℤ
  t : ℚ
deriving DecidableEq, Repr

/-- Python `int(q)` on a float: truncation toward zero, modelled exactly on
rationals. -/
def pyInt (q : ℚ) : ℤ :=
  q.num.tdiv (q.den : ℤ)

/-- The detector state (`src/utils/smart_roi_detector.py:18-38`): the
bounded position history (newest last) and the current prediction.  The
arithmetic the Python code performs on IEEE doubles is modelled with exact
rationals. -/
structure State where
  history_size : ℕ
  confidence_threshold : ℕ
  position_history : List Pos
  predicted_roi : Option (ℤ × ℤ × ℤ × ℤ)
  prediction_confidence : ℚ
deriving DecidableEq, Repr

/-- A fresh detector, as built by `SmartROIDetector.__init__`. -/
def init (history_size confidence_threshold : ℕ) : State :=
  { history_size := history_size
    confidence_threshold := confidence_threshold
    position_history := []
    predicted_roi := none
    prediction_confidence := 0 }

/-- The average of the recent positions
(`smart_roi_detector.py:62-65`) as `(avg_x, avg_y, avg_w, avg_h)`. -/
def avgOf (recent : List Pos) : ℚ × ℚ × ℚ × ℚ :=
  let n : ℚ := recent.length
  ((recent.map (fun p => (p.x : ℚ))).sum / n,
   (recent.map (fun p => (p.y : ℚ))).sum / n,
   (recent.map (fun p => (p.w : ℚ))).sum / n,
   (recent.map (fun p => (p.h : ℚ))).sum / n)

/-- The per-position similarity test of `_update_prediction`
(`smart_roi_detector.py:68-77`): each coordinate within 15% tolerance of
the average, the x and y deviations being measured against the average
width and height respectively. -/
def similarToAvg (avg : ℚ × ℚ × ℚ × ℚ) (p : Pos) : Bool :=
  |(p.x : ℚ) - avg.1| < avg.2.2.1 * (15 / 100) &&
  |(p.y : ℚ) - avg.2.1| < avg.2.2.2 * (15 / 100) &&
  |(p.w : ℚ) - avg.2.2.1| < avg.2.2.1 * (15 / 100) &&
  |(p.h : ℚ) - avg.2.2.2| < avg.2.2.2 * (15 / 100)

/-- The 10%-margin expansion applied to a confident average
(`smart_roi_detector.py:82-88`). -/
def expandRoi (avg : ℚ × ℚ × ℚ × ℚ) : ℤ × ℤ × ℤ × ℤ :=
  (pyInt (avg.1 - avg.2.2.1 * (1 / 10)),
   pyInt (avg.2.1 - avg.2.2.2 * (1 / 10)),
   pyInt (avg.2.2.1 * (1 + 2 * (1 / 10))),
   pyInt (avg.2.2.2 * (1 + 2 * (1 / 10))))

/-- `SmartROIDetector._update_prediction`
(`src/utils/smart_roi_detector.py:51-92`). -/
def update_prediction (st : State) : State :=
  if st.position_history.length < st.confidence_threshold then
    { st with predicted_roi := none, prediction_confidence := 0 }
  else
    let recent := st.position_history.drop
      (st.position_history.length - st.confidence_threshold)
    let avg := avgOf recent
    let similar_count := recent.countP (fun p => similarToAvg avg p)
    if st.confidence_threshold ≤ similar_count then
      { st with
        predicted_roi := some (expandRoi avg)
        prediction_confidence := (similar_count : ℚ) / (recent.length : ℚ) }
    else
      { st with predicted_roi := none, prediction_confidence := 0 }

/-- `SmartROIDetector.add_detection`
(`src/utils/smart_roi_detector.py:40-49`): append to the `maxlen`-bounded
deque, then update the prediction. -/
def add_detection (st : State) (x y w h : ℤ) (now : ℚ) : State :=
  let appended := st.position_history ++ [⟨x, y, w, h, now⟩]
  let bounded := appended.drop (appended.length - st.history_size)
  update_prediction { st with position_history := bounded }

/-- `SmartROIDetector.get_predicted_roi`
(`src/utils/smart_roi_detector.py:94-107`): return the prediction only if
one exists, the history is non-empty, and the newest record is less than 3
seconds old. -/
def get_predicted_roi (st : State) (now : ℚ) : Option (ℤ × ℤ × ℤ × ℤ) :=
  match st.predicted_roi, st.position_history.getLast? with
  | some roi, some lastPos => if now - lastPos.t < 3 then some roi else none
  | _, _ => none

end SmartROIDetector

namespace KuroAPI

/-- The parsed JSON dictionary the remote service answers with: an integer
status code plus a message, as the callers of `KuroAPI` read it
(`result.get("code")`, `result.get("msg")`). -/
structure Resp where
  code : ℤ
  msg : String
deriving DecidableEq, Repr

/-- Outcome of one `session.post` attempt, as seen by the `try/except`
blocks of `kuro_api.py`: a parsed JSON response, a
`requests.exceptions.Timeout`, or any other exception (including a JSON
parse failure) with its message. -/
inductive HttpOutcome
  | ok (r : Resp)
  | timeout
  | exn (msg : String)
deriving DecidableEq, Repr

/-- The HTTP oracle: the outcome of the `i`-th POST attempt of one call. -/
def HttpOracle : Type := ℕ → HttpOutcome

/-- The message recorded for one timed-out attempt
(`kuro_api.py:278`, `f"请求超时(>{timeout}s)"`). -/
def timeoutMsg (t : ℚ) : String :=
  "请求超时(>" ++ toString t ++ "s)"

/-- The message recorded for a non-timeout failure
(`kuro_api.py:282`, `f"请求失败: {str(e)}"`). -/
def failMsg (e : String) : String :=
  "请求失败: " ++ e

/-- The escalating-timeout retry loop shared by `get_role_infos` and
`scan_login` (`src/utils/kuro_api.py:272-285` and `:311-324`):
for each timeout in the ladder, POST once; a parsed response is returned
immediately; a timeout records its message and continues to the next rung
(falling out of the loop after the last); any other exception records its
message and breaks.  After the loop the call returns
`{"code": -1, "msg": last_error or "请求失败"}`.  The second component
counts the POST attempts made. -/
def ladderLoop (http : HttpOracle) :
    List ℚ → ℕ → Option String → Resp × ℕ
  | [], n, last_error => (⟨-1, last_error.getD "请求失败"⟩, n)
  | t :: ts, n, _ =>
    match http n with
    | .ok r => (r, n + 1)
    | .timeout => ladderLoop http ts (n + 1) (some (timeoutMsg t))
    | .exn e => (⟨-1, failMsg e⟩, n + 1)

/-- The timeout ladder of `get_role_infos` (`kuro_api.py:270`):
`[0.6, 1.2, 2.0] if smart_retry else [1.0]`. -/
def roleTimeouts (smart_retry : Bool) : List ℚ :=
  if smart_retry then [6 / 10, 12 / 10, 2] else [1]

/-- The timeout ladder of `scan_login` (`kuro_api.py:309`):
`[0.8, 1.5, 2.5] if smart_retry else [1.5]`. -/
def scanTimeouts (smart_retry : Bool) : List ℚ :=
  if smart_retry then [8 / 10, 15 / 10, 25 / 10] else [15 / 10]

/-- `KuroAPI.get_role_infos` (`src/utils/kuro_api.py:255-285`): the validate
call, returning its result dictionary together with the number of POST
attempts made. -/
def get_role_infos (http : HttpOracle) (smart_retry : Bool) : Resp × ℕ :=
  ladderLoop http (roleTimeouts smart_retry) 0 none

/-- `KuroAPI.scan_login` (`src/utils/kuro_api.py:287-324`): the confirm
call, returning its result dictionary together with the number of POST
attempts made.  (The request body — `qrCode`, `verifyCode`, `autoLogin` —
does not influence the retry discipline and is carried by the oracle.) -/
def scan_login (http : HttpOracle) (smart_retry : Bool) : Resp × ℕ :=
  ladderLoop http (scanTimeouts smart_retry) 0 none

/-- `KuroAPI.login` (`src/utils/kuro_api.py:226-253`): single POST inside a
`try/except`; any exception yields `{"code": -1, "msg": ...}`.  (The
token-saving side effect on success does not affect the returned value.) -/
def login (attempt : HttpOutcome) : Resp :=
  match attempt with
  | .ok r => r
  | .timeout => ⟨-1, failMsg "timeout"⟩
  | .exn e => ⟨-1, failMsg e⟩

/-- `KuroAPI.send_sms` (`src/utils/kuro_api.py:326-341`): single POST
inside a `try/except`; any exception yields `{"code": -1, "msg": ...}`. -/
def send_sms (attempt : HttpOutcome) : Resp :=
  match attempt with
  | .ok r => r
  | .timeout => ⟨-1, failMsg "timeout"⟩
  | .exn e => ⟨-1, failMsg e⟩

end KuroAPI

namespace ScanThread

open KuroAPI

/-- One API call made by the scan thread: the validate endpoint
(`kuro_api.get_role_infos(qr_code)`) or the confirm endpoint
(`kuro_api.scan_login(qr_code, verify_code)`). -/
inductive ApiCall
  | validate (qrCode : String)
  | confirm (qrCode verifyCode : String)
deriving DecidableEq, Repr

/-- The outcome `ScanThread.run` emits through `scan_result`. -/
inductive Outcome
  | success
  | needSms
  | failure (msg : String)
deriving DecidableEq, Repr

/-- `ScanThread.run` (`src/ui/main_window.py:36-108`).  `role` is the
dictionary `get_role_infos(qr_code)` would return; `confirm v` the
dictionary `scan_login(qr_code, v)` would return for verification code
`v` (both calls are total, see `KuroAPI`).  Returns the ordered list of
API calls made and the emitted outcome. -/
def run (qr_code verify_code : String) (skip_role_check : Bool)
    (role : Resp) (confirm : String → Resp) : List ApiCall × Outcome :=
  if !skip_role_check && role.code = 220 then
    ([.validate qr_code], .failure "Token已过期")
  else if !skip_role_check && role.code = 2209 then
    ([.validate qr_code], .failure "二维码已过期")
  else if !skip_role_check && role.code ≠ 200 then
    ([.validate qr_code], .failure role.msg)
  else
    let head := if skip_role_check then [] else [ApiCall.validate qr_code]
    let scan_result := confirm verify_code
    if scan_result.code = 200 then
      (head ++ [.confirm qr_code verify_code], .success)
    else if scan_result.code = 2240 then
      (head ++ [.confirm qr_code verify_code], .needSms)
    else if verify_code ≠ "" then
      let scan_result_retry := confirm ""
      if scan_result_retry.code = 200 then
        (head ++ [.confirm qr_code verify_code, .confirm qr_code ""],
         .success)
      else
        (head ++ [.confirm qr_code verify_code, .confirm qr_code ""],
         .failure scan_result_retry.msg)
    else
      (head ++ [.confirm qr_code verify_code], .failure scan_result.msg)

end ScanThread

namespace MainWindow

open KuroAPI ScanThread

/-- The needs-verification flow of `MainWindow`
(`on_qr_detected`, `main_window.py:829-851`, and the `need_sms` branch of
`on_scan_result`, `main_window.py:864-926`): a detected payload is stored
in `pending_qr_code` and submitted by a first `ScanThread(qr_code,
skip_role_check=False)`; if that thread reports `need_sms` and the user
supplies a verification code, a second
`ScanThread(self.pending_qr_code, skip_role_check=True)` with
`verify_code = code` is started.  `confirm1`/`confirm2` are the confirm
endpoint's answers during the first and second thread.  Returns the calls
of the first thread and, when the resubmission happens, those of the
second. -/
def verificationFlow (qr_code code : String) (role : Resp)
    (confirm1 confirm2 : String → Resp) :
    (List ApiCall × Outcome) × Option (List ApiCall × Outcome) :=
  let pending_qr_code := qr_code
  let first := ScanThread.run qr_code "" false role confirm1
  if first.2 = .needSms then
    (first, some (ScanThread.run pending_qr_code code true role confirm2))
  else
    (first, none)

end MainWindow

namespace ImageBufferPool

/-- A buffer shape `(height, width, channels)`, the bucketing key of the
pool. -/
abbrev Shape := ℕ × ℕ × ℕ

/-- The pool state (`src/utils/image_buffer_pool.py:19-28`): the per-shape
buckets (`self.buffers`, a dict modelled as an association list with unique
keys), the cap, and a counter providing fresh buffer identities for
`np.zeros` allocations. -/
structure Pool where
  pool_size : ℕ
  buffers : List (Shape × List ℕ)
  next_id : ℕ
deriving DecidableEq, Repr

/-- Dictionary lookup `self.buffers[size]`. -/
def lookupShape : List (Shape × List ℕ) → Shape → Option (List ℕ)
  | [], _ => none
  | (s, l) :: rest, sh => if s = sh then some l else lookupShape rest sh

/-- Dictionary store `self.buffers[size] = l` (replace, or insert when the
key is new). -/
def storeShape : List (Shape × List ℕ) → Shape → List ℕ → List (Shape × List ℕ)
  | [], sh, l => [(sh, l)]
  | (s, l0) :: rest, sh, l =>
    if s = sh then (sh, l) :: rest else (s, l0) :: storeShape rest sh l

/-- `ImageBufferPool.get_buffer` (`src/utils/image_buffer_pool.py:50-71`):
pop the most recently returned buffer of the shape, or allocate fresh. -/
def get_buffer (p : Pool) (sh : Shape) : Pool × ℕ :=
  match lookupShape p.buffers sh with
  | some (b :: bs) =>
    let l := b :: bs
    ({ p with buffers := storeShape p.buffers sh l.dropLast },
     l.getLast (by simp [l]))
  | _ => ({ p with next_id := p.next_id + 1 }, p.next_id)

/-- `ImageBufferPool.return_buffer` (`src/utils/image_buffer_pool.py:73-90`):
create the bucket if missing, then push the buffer back only when the
bucket holds fewer than `pool_size` buffers. -/
def return_buffer (p : Pool) (buf : ℕ) (sh : Shape) : Pool :=
  let withKey :=
    match lookupShape p.buffers sh with
    | none => storeShape p.buffers sh []
    | some _ => p.buffers
  match lookupShape withKey sh with
  | some l =>
    if l.length < p.pool_size then
      { p with buffers := storeShape withKey sh (l ++ [buf]) }
    else
      { p with buffers := withKey }
  | none => { p with buffers := withKey }

/-- One pool operation. -/
inductive PoolOp
  | acquire (sh : Shape)
  | release (buf : ℕ) (sh : Shape)
deriving DecidableEq, Repr

/-- Apply a sequence of pool operations. -/
def runOps (p : Pool) : List PoolOp → Pool
  | [] => p
  | .acquire sh :: ops => runOps (get_buffer p sh).1 ops
  | .release buf sh :: ops => runOps (return_buffer p buf sh) ops

/-- Every bucket holds at most `pool_size` buffers. -/
def Bounded (p : Pool) : Prop :=
  ∀ sh l, lookupShape p.buffers sh = some l → l.length ≤ p.pool_size

/-- The global `image_buffer_pool = ImageBufferPool(pool_size=5)` with its
pre-allocated buckets (`image_buffer_pool.py:30-39` and `:138`): two
buffers for each of the four common shapes. -/
def image_buffer_pool : Pool :=
  { pool_size := 5
    buffers := [((1280, 720, 3), [0, 1]), ((1920, 1080, 3), [2, 3]),
                ((800, 800, 3), [4, 5]), ((640, 480, 3), [6, 7])]
    next_id := 8 }

end ImageBufferPool

section MarkerLemmas

/-- A payload accepted by the marker test contains `"KURO"`: the first
disjunct `"G152#KURO" in qr_data` subsumes the second. -/
theorem acceptQR_contains_kuro {s : String}
    (h : AIQRScanner.acceptQR s = true) : strContains s "KURO" = true := by
  rcases Bool.or_eq_true_iff.mp h with h' | h'
  · have hinf : "G152#KURO".toList <:+: s.toList := of_decide_eq_true h'
    have hk : "KURO".toList <:+: "G152#KURO".toList := by decide
    exact decide_eq_true (hk.trans hinf)
  · exact h'

/-- Whatever `AIQRScanner.try_decode_qr` returns passed the marker test. -/
theorem try_decode_qr_accepted {w p : Option String} {P : String}
    (h : AIQRScanner.try_decode_qr w p = some P) :
    AIQRScanner.acceptQR P = true := by
  rcases w with _ | qw <;> rcases p with _ | qp <;>
    simp only [AIQRScanner.try_decode_qr] at h
  · exact absurd h (by simp)
  · split at h
    · cases h; assumption
    · exact absurd h (by simp)
  · split at h
    · cases h; assumption
    · exact absurd h (by simp)
  · split at h
    · cases h; assumption
    · split at h
      · cases h; assumption
      · exact absurd h (by simp)

/-- Whatever the race returns came from `try_decode_qr`. -/
theorem raceFirst_accepted {oracle : AIQRScanner.DecodeOracle}
    {cs : List AIQRScanner.Candidate} {P : String}
    (h : AIQRScanner.raceFirst oracle cs = some P) :
    AIQRScanner.acceptQR P = true := by
  induction cs with
  | nil => exact absurd h (by simp [AIQRScanner.raceFirst])
  | cons c cs ih =>
    rw [AIQRScanner.raceFirst] at h
    rcases hd : AIQRScanner.decodeCandidate oracle c with _ | r
    · rw [hd] at h
      exact ih h
    · rw [hd] at h
      cases h
      exact try_decode_qr_accepted hd

/-- Whatever the sequential enhancement pass returns came from
`try_decode_qr`. -/
theorem seqPass_accepted {oracle : AIQRScanner.DecodeOracle}
    {cs : List AIQRScanner.Candidate} {P : String}
    (h : (AIQRScanner.seqPass oracle cs).2 = some P) :
    AIQRScanner.acceptQR P = true := by
  induction cs with
  | nil => exact absurd h (by simp [AIQRScanner.seqPass])
  | cons c cs ih =>
    rw [AIQRScanner.seqPass] at h
    rcases hd : AIQRScanner.decodeCandidate oracle c with _ | r
    · rw [hd] at h
      exact ih h
    · rw [hd] at h
      cases h
      exact try_decode_qr_accepted hd

end MarkerLemmas

/-- C1.  A decoded string lacking the marker substring `"KURO"` (the
acceptance test `"G152#KURO" in s or "KURO" in s` is equivalent to
`"KURO" in s`) is never returned by `AIQRScanner.try_decode_qr` or
`QRScanner.try_decode_qr`, whatever the two decoder backends produced, and
hence never by the candidate race / enhancement pass of
`AIQRScanner.scan_region`; the functions are total, so such payloads are
dropped without surfacing an error. -/
theorem C1_marker_filter :
    (∀ w p P, strContains P "KURO" = false →
        AIQRScanner.try_decode_qr w p ≠ some P) ∧
    (∀ p P, strContains P "KURO" = false →
        QRScanner.try_decode_qr p ≠ some P) ∧
    (∀ (oracle : AIQRScanner.DecodeOracle) (srLoaded : Bool) P,
        strContains P "KURO" = false →
        (AIQRScanner.scan_region oracle srLoaded).2 ≠ some P) := by
  refine ⟨?_, ?_, ?_⟩
  · intro w p P hP h
    exact absurd (acceptQR_contains_kuro (try_decode_qr_accepted h))
      (by simp [hP])
  · intro p P hP h
    rcases p with _ | q
    · exact absurd h (by simp [QRScanner.try_decode_qr])
    · rw [QRScanner.try_decode_qr] at h
      split at h
      · cases h
        exact absurd (acceptQR_contains_kuro (by assumption)) (by simp [hP])
      · exact absurd h (by simp)
  · intro oracle srLoaded P hP h
    rw [AIQRScanner.scan_region] at h
    rcases hr : AIQRScanner.raceFirst oracle AIQRScanner.cheapCandidates
      with _ | r
    · rw [hr] at h
      simp only at h
      exact absurd (acceptQR_contains_kuro (seqPass_accepted h))
        (by simp [hP])
    · rw [hr] at h
      simp only at h
      cases h
      exact absurd (acceptQR_contains_kuro (raceFirst_accepted hr))
        (by simp [hP])

/-- C1 witness: the payload `"hello-world-no-marker-24"` lacks the marker
and is never returned, at concrete decoder outputs. -/
theorem C1_marker_filter_witness :
    AIQRScanner.try_decode_qr (some "hello-world-no-marker-24") none ≠
      some "hello-world-no-marker-24" ∧
    QRScanner.try_decode_qr (some "hello-world-no-marker-24") ≠
      some "hello-world-no-marker-24" ∧
    (AIQRScanner.scan_region
        (fun _ => (some "hello-world-no-marker-24", none)) true).2 ≠
      some "hello-world-no-marker-24" :=
  ⟨C1_marker_filter.1 (some "hello-world-no-marker-24") none _ (by decide),
   C1_marker_filter.2.1 (some "hello-world-no-marker-24") _ (by decide),
   C1_marker_filter.2.2 (fun _ => (some "hello-world-no-marker-24", none))
     true _ (by decide)⟩

section ScanRegionLemmas

/-- The race fails exactly when every submitted candidate fails to
decode. -/
theorem raceFirst_eq_none_iff {oracle : AIQRScanner.DecodeOracle}
    {cs : List AIQRScanner.Candidate} :
    AIQRScanner.raceFirst oracle cs = none ↔
      ∀ c ∈ cs, AIQRScanner.decodeCandidate oracle c = none := by
  induction cs with
  | nil => simp [AIQRScanner.raceFirst]
  | cons c cs ih =>
    rw [AIQRScanner.raceFirst]
    rcases hd : AIQRScanner.decodeCandidate oracle c with _ | r
    · simpa [hd] using ih
    · simp [hd]

/-- Every operation of the sequential pass is a sequential decode attempt
on one of the given enhancement candidates. -/
theorem seqPass_ops_subset {oracle : AIQRScanner.DecodeOracle}
    {cs : List AIQRScanner.Candidate} :
    ∀ op ∈ (AIQRScanner.seqPass oracle cs).1,
      ∃ c ∈ cs, op = AIQRScanner.ScanOp.seqTry c := by
  induction cs with
  | nil => simp [AIQRScanner.seqPass]
  | cons c cs ih =>
    rw [AIQRScanner.seqPass]
    rcases hd : AIQRScanner.decodeCandidate oracle c with _ | r
    · intro op hop
      simp only [List.mem_cons] at hop
      rcases hop with rfl | hop
      · exact ⟨c, by simp⟩
      · obtain ⟨c', hc', rfl⟩ := ih op hop
        exact ⟨c', by simp [hc']⟩
    · intro op hop
      simp only [List.mem_singleton] at hop
      exact ⟨c, by simp [hop]⟩

end ScanRegionLemmas

/-- C8.  `scan_region` first races exactly the three cheap candidates (raw
capture, 1280x720 fit, 40% downscale): when one of them decodes, the trace
is that single race and no enhancement candidate is ever computed; every
run starts with that race; and only when all three fail is the enhancement
step performed, followed exclusively by sequential decode attempts on the
enhancement candidates (binarization always, super-resolution only when
the SR model is loaded). -/
theorem C8_two_pass_structure :
    ∀ (oracleA oracleB : AIQRScanner.DecodeOracle) (srLoaded : Bool),
    (∃ c ∈ AIQRScanner.cheapCandidates,
        (AIQRScanner.decodeCandidate oracleA c).isSome = true) →
    (∀ c ∈ AIQRScanner.cheapCandidates,
        AIQRScanner.decodeCandidate oracleB c = none) →
    ((AIQRScanner.scan_region oracleA srLoaded).1 =
        [.race AIQRScanner.cheapCandidates] ∧
     (∀ (oracle : AIQRScanner.DecodeOracle) (sr : Bool),
        (AIQRScanner.scan_region oracle sr).1.head? =
          some (.race AIQRScanner.cheapCandidates)) ∧
     ∃ ops, (AIQRScanner.scan_region oracleB srLoaded).1 =
        .race AIQRScanner.cheapCandidates ::
          .computeEnhanced srLoaded :: ops ∧
        ∀ op ∈ ops, ∃ c ∈ AIQRScanner.enhancedCandidates srLoaded,
          op = AIQRScanner.ScanOp.seqTry c) := by
  intro oracleA oracleB srLoaded hA hB
  refine ⟨?_, ?_, ?_⟩
  · rcases hr : AIQRScanner.raceFirst oracleA AIQRScanner.cheapCandidates
      with _ | r
    · obtain ⟨c, hc, hsome⟩ := hA
      rw [raceFirst_eq_none_iff.mp hr c hc] at hsome
      exact absurd hsome (by simp)
    · rw [AIQRScanner.scan_region, hr]
  · intro oracle sr
    rw [AIQRScanner.scan_region]
    rcases hr : AIQRScanner.raceFirst oracle AIQRScanner.cheapCandidates
      with _ | r <;> simp
  · have hr : AIQRScanner.raceFirst oracleB AIQRScanner.cheapCandidates =
        none := raceFirst_eq_none_iff.mpr hB
    refine ⟨(AIQRScanner.seqPass oracleB
      (AIQRScanner.enhancedCandidates srLoaded)).1, ?_, seqPass_ops_subset⟩
    rw [AIQRScanner.scan_region, hr]

/-- C8 witness: an oracle whose raw capture decodes at once, and an oracle
that never decodes, with the SR model loaded. -/
theorem C8_two_pass_structure_witness :
    (AIQRScanner.scan_region
        (fun _ => (some "G152#KURO-sample-payload", none)) true).1 =
      [.race AIQRScanner.cheapCandidates] ∧
    (∀ (oracle : AIQRScanner.DecodeOracle) (sr : Bool),
        (AIQRScanner.scan_region oracle sr).1.head? =
          some (.race AIQRScanner.cheapCandidates)) ∧
    ∃ ops, (AIQRScanner.scan_region (fun _ => (none, none)) true).1 =
        .race AIQRScanner.cheapCandidates :: .computeEnhanced true :: ops ∧
        ∀ op ∈ ops, ∃ c ∈ AIQRScanner.enhancedCandidates true,
          op = AIQRScanner.ScanOp.seqTry c :=
  C8_two_pass_structure (fun _ => (some "G152#KURO-sample-payload", none))
    (fun _ => (none, none)) true (by decide) (by decide)

section LadderLemmas

/-- Whatever the ladder loop returns is a parsed server response or the
normalized `code = -1` failure dictionary. -/
theorem ladderLoop_ok_or_fail (http : KuroAPI.HttpOracle) :
    ∀ (ts : List ℚ) (n : ℕ) (le : Option String),
      (∃ i r, http i = .ok r ∧ (KuroAPI.ladderLoop http ts n le).1 = r) ∨
        (KuroAPI.ladderLoop http ts n le).1.code = -1 := by
  intro ts
  induction ts with
  | nil => intro n le; right; rfl
  | cons t ts ih =>
    intro n le
    rw [KuroAPI.ladderLoop]
    rcases h : http n with r | _ | e
    · exact Or.inl ⟨n, r, h, rfl⟩
    · exact ih (n + 1) (some (KuroAPI.timeoutMsg t))
    · right; rfl

end LadderLemmas

/-- C4.  With smart retry, the validate ladder is exactly
`[0.6, 1.2, 2.0]`: a validate call whose every POST times out performs
exactly 3 attempts and returns a `code = -1` failure, while a first-attempt
non-timeout error stops after exactly one attempt; the confirm call obeys
the same discipline over its ladder `[0.8, 1.5, 2.5]`. -/
theorem C4_timeout_ladder :
    ∀ (httpT httpE : KuroAPI.HttpOracle) (e : String),
    (∀ i, httpT i = .timeout) →
    httpE 0 = .exn e →
    (KuroAPI.roleTimeouts true = [6 / 10, 12 / 10, 2] ∧
     (KuroAPI.roleTimeouts true).length = 3 ∧
     (KuroAPI.get_role_infos httpT true).2 = 3 ∧
     (KuroAPI.get_role_infos httpT true).1.code = -1 ∧
     (KuroAPI.get_role_infos httpE true).2 = 1 ∧
     (KuroAPI.get_role_infos httpE true).1.code = -1 ∧
     KuroAPI.scanTimeouts true = [8 / 10, 15 / 10, 25 / 10] ∧
     (KuroAPI.scanTimeouts true).length = 3 ∧
     (KuroAPI.scan_login httpT true).2 = 3 ∧
     (KuroAPI.scan_login httpT true).1.code = -1 ∧
     (KuroAPI.scan_login httpE true).2 = 1 ∧
     (KuroAPI.scan_login httpE true).1.code = -1) := by
  intro httpT httpE e hT hE
  refine ⟨rfl, rfl, ?_, ?_, ?_, ?_, rfl, rfl, ?_, ?_, ?_, ?_⟩ <;>
    simp [KuroAPI.get_role_infos, KuroAPI.scan_login, KuroAPI.ladderLoop,
      KuroAPI.roleTimeouts, KuroAPI.scanTimeouts, hT 0, hT 1, hT 2, hE]

/-- C4 witness: the always-timeout oracle and a first-attempt
connection-error oracle. -/
theorem C4_timeout_ladder_witness :
    (KuroAPI.roleTimeouts true = [6 / 10, 12 / 10, 2] ∧
     (KuroAPI.roleTimeouts true).length = 3 ∧
     (KuroAPI.get_role_infos (fun _ => .timeout) true).2 = 3 ∧
     (KuroAPI.get_role_infos (fun _ => .timeout) true).1.code = -1 ∧
     (KuroAPI.get_role_infos (fun _ => .exn "connection refused") true).2 =
       1 ∧
     (KuroAPI.get_role_infos (fun _ => .exn "connection refused")
       true).1.code = -1 ∧
     KuroAPI.scanTimeouts true = [8 / 10, 15 / 10, 25 / 10] ∧
     (KuroAPI.scanTimeouts true).length = 3 ∧
     (KuroAPI.scan_login (fun _ => .timeout) true).2 = 3 ∧
     (KuroAPI.scan_login (fun _ => .timeout) true).1.code = -1 ∧
     (KuroAPI.scan_login (fun _ => .exn "connection refused") true).2 = 1 ∧
     (KuroAPI.scan_login (fun _ => .exn "connection refused")
       true).1.code = -1) :=
  C4_timeout_ladder (fun _ => .timeout)
    (fun _ => .exn "connection refused") "connection refused"
    (fun _ => rfl) rfl

/-- C5.  For every behavior of the HTTP layer, the four Remote Auth Client
operations are total functions into the result-dictionary model (no
exception escapes), and each returns either a parsed server response or
the normalized transport-failure dictionary with integer code `-1`. -/
theorem C5_exceptions_normalized :
    ∀ (http : KuroAPI.HttpOracle) (smart : Bool) (a b : KuroAPI.HttpOutcome),
      ((∃ i r, http i = .ok r ∧ (KuroAPI.get_role_infos http smart).1 = r) ∨
        (KuroAPI.get_role_infos http smart).1.code = -1) ∧
      ((∃ i r, http i = .ok r ∧ (KuroAPI.scan_login http smart).1 = r) ∨
        (KuroAPI.scan_login http smart).1.code = -1) ∧
      ((∃ r, a = .ok r ∧ KuroAPI.login a = r) ∨
        (KuroAPI.login a).code = -1) ∧
      ((∃ r, b = .ok r ∧ KuroAPI.send_sms b = r) ∨
        (KuroAPI.send_sms b).code = -1) := by
  intro http smart a b
  refine ⟨ladderLoop_ok_or_fail http _ 0 none,
    ladderLoop_ok_or_fail http _ 0 none, ?_, ?_⟩
  · rcases a with r | _ | e
    · exact Or.inl ⟨r, rfl, rfl⟩
    · right; rfl
    · right; rfl
  · rcases b with r | _ | e
    · exact Or.inl ⟨r, rfl, rfl⟩
    · right; rfl
    · right; rfl

section ScanThreadLemmas

/-- A `ScanThread` created with `skip_role_check=True` never calls the
validate endpoint, and its first call is the confirm call with the given
payload and verification code. -/
theorem run_skip_role_check_calls (qr v : String) (role : KuroAPI.Resp)
    (confirm : String → KuroAPI.Resp) :
    (ScanThread.run qr v true role confirm).1.head? =
      some (.confirm qr v) ∧
    ∀ q, ScanThread.ApiCall.validate q ∉
      (ScanThread.run qr v true role confirm).1 := by
  rw [ScanThread.run]
  simp only [Bool.not_true, Bool.false_and, Bool.false_eq_true, if_false,
    List.nil_append]
  split
  · simp
  · split
    · simp
    · split
      · split <;> simp
      · simp

end ScanThreadLemmas

/-- C6.  Whenever the first scan thread (with role check) reports the
needs-verification outcome (confirm status 2240) and a verification code is
obtained, the orchestrator starts a resubmission thread whose call
sequence contains no validate call at all and begins with the confirm call
carrying the identical QR payload and that code. -/
theorem C6_resubmit_skips_validate :
    ∀ (qr code : String) (role : KuroAPI.Resp)
      (confirm1 confirm2 : String → KuroAPI.Resp),
    (ScanThread.run qr "" false role confirm1).2 = .needSms →
    ∃ second,
      (MainWindow.verificationFlow qr code role confirm1 confirm2).2 =
        some second ∧
      second = ScanThread.run qr code true role confirm2 ∧
      second.1.head? = some (.confirm qr code) ∧
      ∀ q, ScanThread.ApiCall.validate q ∉ second.1 := by
  intro qr code role confirm1 confirm2 hfirst
  refine ⟨ScanThread.run qr code true role confirm2, ?_, rfl,
    (run_skip_role_check_calls qr code role confirm2).1,
    (run_skip_role_check_calls qr code role confirm2).2⟩
  rw [MainWindow.verificationFlow]
  simp [hfirst]

/-- C6 witness: a server that answers the role check with 200 and the first
confirm with 2240. -/
theorem C6_resubmit_skips_validate_witness :
    ∃ second,
      (MainWindow.verificationFlow "G152#KURO-payload" "123456" ⟨200, "ok"⟩
          (fun _ => ⟨2240, "need sms"⟩) (fun _ => ⟨200, "ok"⟩)).2 =
        some second ∧
      second = ScanThread.run "G152#KURO-payload" "123456" true ⟨200, "ok"⟩
        (fun _ => ⟨200, "ok"⟩) ∧
      second.1.head? = some (.confirm "G152#KURO-payload" "123456") ∧
      ∀ q, ScanThread.ApiCall.validate q ∉ second.1 :=
  C6_resubmit_skips_validate "G152#KURO-payload" "123456" ⟨200, "ok"⟩
    (fun _ => ⟨2240, "need sms"⟩) (fun _ => ⟨200, "ok"⟩) (by decide)

/-- C7.  When the confirm call was made with a non-empty verification code
and came back with a status that is neither 200 nor 2240, the thread makes
exactly one soft retry — a second confirm call with an empty code — and
reports success exactly when that retry returns 200. -/
theorem C7_soft_retry :
    ∀ (qr verify : String) (skip : Bool) (role : KuroAPI.Resp)
      (confirm : String → KuroAPI.Resp),
    verify ≠ "" →
    (skip = true ∨ role.code = 200) →
    (confirm verify).code ≠ 200 →
    (confirm verify).code ≠ 2240 →
    ((ScanThread.run qr verify skip role confirm).1 =
      (if skip then [] else [ScanThread.ApiCall.validate qr]) ++
        [.confirm qr verify, .confirm qr ""] ∧
     ((ScanThread.run qr verify skip role confirm).2 = .success ↔
       (confirm "").code = 200)) := by
  intro qr verify skip role confirm hv hrole h200 h2240
  have c220 : (!skip && decide (role.code = 220)) = false := by
    rcases hrole with rfl | hcode
    · rfl
    · simp [hcode]
  have c2209 : (!skip && decide (role.code = 2209)) = false := by
    rcases hrole with rfl | hcode
    · rfl
    · simp [hcode]
  have cne : (!skip && decide (role.code ≠ 200)) = false := by
    rcases hrole with rfl | hcode
    · rfl
    · simp [hcode]
  have hbranch :
      ScanThread.run qr verify skip role confirm =
        ((if skip then [] else [ScanThread.ApiCall.validate qr]) ++
          [.confirm qr verify, .confirm qr ""],
         if (confirm "").code = 200 then .success
         else .failure (confirm "").msg) := by
    rw [ScanThread.run, c220, c2209]
    rw [show (!skip && decide (¬role.code = 200)) = false from cne]
    simp only [Bool.false_eq_true, if_false]
    rw [if_neg h200, if_neg h2240, if_pos hv]
    split <;> rfl
  rw [hbranch]
  constructor
  · rfl
  · constructor
    · intro h
      by_contra hr
      rw [if_neg hr] at h
      exact absurd h (by simp)
    · intro h
      rw [if_pos h]

/-- C7 witness: role check passes with 200, the confirm with code
`"123456"` fails with 1000, the empty-code retry succeeds with 200. -/
theorem C7_soft_retry_witness :
    ((ScanThread.run "qr-payload" "123456" false ⟨200, "ok"⟩
        (fun v => if v = "123456" then ⟨1000, "bad code"⟩ else ⟨200, "ok"⟩)).1 =
      (if false then [] else [ScanThread.ApiCall.validate "qr-payload"]) ++
        [.confirm "qr-payload" "123456", .confirm "qr-payload" ""] ∧
     ((ScanThread.run "qr-payload" "123456" false ⟨200, "ok"⟩
        (fun v => if v = "123456" then ⟨1000, "bad code"⟩ else
          ⟨200, "ok"⟩)).2 = .success ↔
       ((fun v => if v = "123456" then (⟨1000, "bad code"⟩ : KuroAPI.Resp)
          else ⟨200, "ok"⟩) "").code = 200)) :=
  C7_soft_retry "qr-payload" "123456" false ⟨200, "ok"⟩
    (fun v => if v = "123456" then ⟨1000, "bad code"⟩ else ⟨200, "ok"⟩)
    (by decide) (Or.inr rfl) (by decide) (by decide)

namespace ImageBufferPool

/-- Lookup after a store: the stored bucket for the stored key, the old
bucket otherwise. -/
theorem lookup_store (bs : List (Shape × List ℕ)) (sh sh' : Shape)
    (l : List ℕ) :
    lookupShape (storeShape bs sh l) sh' =
      if sh' = sh then some l else lookupShape bs sh' := by
  rcases eq_or_ne sh' sh with rfl | hne
  · rw [if_pos rfl]
    induction bs with
    | nil => simp [storeShape, lookupShape]
    | cons hd rest ih =>
      obtain ⟨s, l0⟩ := hd
      by_cases hs : s = sh'
      · simp [storeShape, lookupShape, hs]
      · simp [storeShape, lookupShape, hs, ih]
  · rw [if_neg hne]
    induction bs with
    | nil => simp [storeShape, lookupShape, Ne.symm hne]
    | cons hd rest ih =>
      obtain ⟨s, l0⟩ := hd
      by_cases hs : s = sh
      · subst hs
        simp [storeShape, lookupShape, Ne.symm hne]
      · by_cases h2 : s = sh'
        · simp [storeShape, lookupShape, hs, h2, hne]
        · simp [storeShape, lookupShape, hs, h2, ih]

/-- A successful lookup is a member of the association list. -/
theorem lookup_mem :
    ∀ (bs : List (Shape × List ℕ)) (sh : Shape) (l : List ℕ),
      lookupShape bs sh = some l → (sh, l) ∈ bs
  | (s, l0) :: rest, sh, l, hl => by
    rw [lookupShape] at hl
    split at hl
    · rename_i hs
      cases hl
      subst hs
      exact List.mem_cons_self _ _
    · exact List.mem_cons_of_mem _ (lookup_mem rest sh l hl)

/-- Boundedness from a per-bucket bound on an explicit association
list. -/
theorem bounded_of_forall {n k : ℕ} {bs : List (Shape × List ℕ)}
    (h : ∀ e ∈ bs, e.2.length ≤ n) : Bounded ⟨n, bs, k⟩ := by
  intro sh l hl
  exact h (sh, l) (lookup_mem bs sh l hl)

/-- `get_buffer` never grows a bucket. -/
theorem get_buffer_bounded {p : Pool} (hb : Bounded p) (sh : Shape) :
    Bounded (get_buffer p sh).1 := by
  rw [get_buffer]
  rcases hl : lookupShape p.buffers sh with _ | (_ | ⟨b, bs⟩)
  · exact hb
  · exact hb
  · intro sh' l' hl'
    simp only [lookup_store] at hl'
    split at hl'
    · cases hl'
      calc ((b :: bs).dropLast).length ≤ (b :: bs).length := by
            simp [List.length_dropLast]
        _ ≤ p.pool_size := hb sh _ hl
    · exact hb sh' l' hl'

/-- `return_buffer` never grows a bucket beyond `pool_size`. -/
theorem return_buffer_bounded {p : Pool} (hb : Bounded p) (buf : ℕ)
    (sh : Shape) : Bounded (return_buffer p buf sh) := by
  rw [return_buffer]
  rcases hl : lookupShape p.buffers sh with _ | l
  · simp only [lookup_store, if_pos rfl, if_true]
    by_cases hp : ([] : List ℕ).length < p.pool_size
    · rw [if_pos hp]
      intro sh' l' hl'
      simp only [lookup_store] at hl'
      by_cases h : sh' = sh
      · rw [if_pos h] at hl'
        cases hl'
        simpa using hp
      · rw [if_neg h, if_neg h] at hl'
        exact hb sh' l' hl'
    · rw [if_neg hp]
      intro sh' l' hl'
      simp only [lookup_store] at hl'
      by_cases h : sh' = sh
      · rw [if_pos h] at hl'
        cases hl'
        simp
      · rw [if_neg h] at hl'
        exact hb sh' l' hl'
  · simp only [hl]
    by_cases hp : l.length < p.pool_size
    · rw [if_pos hp]
      intro sh' l' hl'
      simp only [lookup_store] at hl'
      by_cases h : sh' = sh
      · rw [if_pos h] at hl'
        cases hl'
        simp only [List.length_append, List.length_singleton]
        omega
      · rw [if_neg h] at hl'
        exact hb sh' l' hl'
    · rw [if_neg hp]
      intro sh' l' hl'
      exact hb sh' l' hl'

/-- Bucket boundedness is preserved by any sequence of pool operations. -/
theorem runOps_bounded {p : Pool} (hb : Bounded p) :
    ∀ ops : List PoolOp, Bounded (runOps p ops)
  | [] => hb
  | .acquire sh :: ops => runOps_bounded (get_buffer_bounded hb sh) ops
  | .release buf sh :: ops =>
      runOps_bounded (return_buffer_bounded hb buf sh) ops

end ImageBufferPool

/-- C9.  Returning a buffer to a shape bucket that already holds
`pool_size` buffers leaves the pool unchanged (the buffer is dropped);
consequently boundedness — every bucket holds at most `pool_size`
buffers — is preserved by every sequence of acquire/release operations,
in particular starting from the global `image_buffer_pool` (cap 5, four
pre-allocated buckets of 2 buffers each). -/
theorem C9_release_respects_cap :
    ∀ (p : ImageBufferPool.Pool) (buf : ℕ) (sh : ImageBufferPool.Shape)
      (l : List ℕ) (ops : List ImageBufferPool.PoolOp),
    ImageBufferPool.lookupShape p.buffers sh = some l →
    l.length = p.pool_size →
    ImageBufferPool.Bounded p →
    (ImageBufferPool.return_buffer p buf sh = p ∧
     ImageBufferPool.Bounded (ImageBufferPool.runOps p ops) ∧
     ImageBufferPool.Bounded
       (ImageBufferPool.runOps ImageBufferPool.image_buffer_pool ops)) := by
  intro p buf sh l ops hl hlen hb
  refine ⟨?_, ImageBufferPool.runOps_bounded hb ops,
    ImageBufferPool.runOps_bounded
      (ImageBufferPool.bounded_of_forall (by decide)) ops⟩
  rw [ImageBufferPool.return_buffer]
  simp only [hl]
  rw [if_neg (by omega)]

/-- C9 witness: a one-bucket pool at its cap, and a short operation
sequence exercising acquire and release. -/
theorem C9_release_respects_cap_witness :
    ImageBufferPool.return_buffer
        ⟨2, [((100, 100, 3), [0, 1])], 2⟩ 7 (100, 100, 3) =
      ⟨2, [((100, 100, 3), [0, 1])], 2⟩ ∧
    ImageBufferPool.Bounded
      (ImageBufferPool.runOps ⟨2, [((100, 100, 3), [0, 1])], 2⟩
        [.release 7 (100, 100, 3), .acquire (100, 100, 3),
         .release 7 (100, 100, 3), .release 8 (100, 100, 3)]) ∧
    ImageBufferPool.Bounded
      (ImageBufferPool.runOps ImageBufferPool.image_buffer_pool
        [.release 7 (100, 100, 3), .acquire (100, 100, 3),
         .release 7 (100, 100, 3), .release 8 (100, 100, 3)]) :=
  C9_release_respects_cap ⟨2, [((100, 100, 3), [0, 1])], 2⟩ 7 (100, 100, 3)
    [0, 1]
    [.release 7 (100, 100, 3), .acquire (100, 100, 3),
     .release 7 (100, 100, 3), .release 8 (100, 100, 3)]
    rfl rfl (ImageBufferPool.bounded_of_forall (by decide))

/-- C2 counterexample.  The dedup check only remembers the most recently
accepted ticket, so within one scan session — started once, with no
further `start_scanning` and no clearing of `last_ticket` — the trace
ticket-A, ticket-B, ticket-A (with the 3-second `reset_processing` timer
between ticks) emits the payload with ticket A twice: the same ticket is
offered for submission twice without any reset, refuting the at-most-once
per-session reading of the claim. -/
theorem C2_counterexample :
    (ScanWindow.runEvents (ScanWindow.start_scanning ⟨none, false, ""⟩)
      [.tick (some "AAAAAAAAAAAAAAAAAAAAAAAA"), .resetTimer,
       .tick (some "BBBBBBBBBBBBBBBBBBBBBBBB"), .resetTimer,
       .tick (some "AAAAAAAAAAAAAAAAAAAAAAAA")]).2 =
      ["AAAAAAAAAAAAAAAAAAAAAAAA", "BBBBBBBBBBBBBBBBBBBBBBBB",
       "AAAAAAAAAAAAAAAAAAAAAAAA"] ∧
    ScanWindow.ticketOf "AAAAAAAAAAAAAAAAAAAAAAAA" =
      "AAAAAAAAAAAAAAAAAAAAAAAA" ∧
    (ScanWindow.runEvents (ScanWindow.start_scanning ⟨none, false, ""⟩)
      [.tick (some "AAAAAAAAAAAAAAAAAAAAAAAA"), .resetTimer,
       .tick (some "BBBBBBBBBBBBBBBBBBBBBBBB"), .resetTimer,
       .tick (some "AAAAAAAAAAAAAAAAAAAAAAAA")]).2.count
      "AAAAAAAAAAAAAAAAAAAAAAAA" = 2 := by
  refine ⟨by decide, by decide, by decide⟩

/-- C2 (amended).  The dedup check suppresses *consecutive* duplicates:
an accepted payload of length at least 24 records its 24-character suffix
as `last_ticket`; the `reset_processing` timer keeps `last_ticket`; and a
payload whose suffix equals the recorded `last_ticket` is never emitted.
Hence of two consecutive decoded payloads with equal suffixes at most one
is accepted until a reset — but once a *different* ticket is accepted in
between, the same ticket can be accepted again without any reset
(see the counterexample). -/
theorem C2_consecutive_dedup :
    ∀ (st : ScanWindow.State) (q : String), 24 ≤ q.length →
    (((ScanWindow.scan_qr_code st (some q)).2 ≠ none →
      (ScanWindow.scan_qr_code st (some q)).1.last_ticket =
        ScanWindow.ticketOf q) ∧
     (ScanWindow.reset_processing st).last_ticket = st.last_ticket ∧
     (st.last_ticket = ScanWindow.ticketOf q →
      (ScanWindow.scan_qr_code st (some q)).2 = none)) := by
  intro st q hlen
  refine ⟨?_, rfl, ?_⟩
  · intro hne
    by_cases hp : st.processing_qr
    · exact absurd (by simp [ScanWindow.scan_qr_code, hp]) hne
    · by_cases ht : ScanWindow.ticketOf q = st.last_ticket
      · exact absurd (by simp [ScanWindow.scan_qr_code, hp, hlen, ht]) hne
      · simp [ScanWindow.scan_qr_code, hp, hlen, ht]
  · intro ht
    by_cases hp : st.processing_qr
    · simp [ScanWindow.scan_qr_code, hp]
    · simp [ScanWindow.scan_qr_code, hp, hlen, ht.symm]

/-- C2 witness: a fresh window accepts a 24-character payload and records
its ticket; with that ticket recorded, the same payload is suppressed. -/
theorem C2_consecutive_dedup_witness :
    ((ScanWindow.scan_qr_code ⟨none, false, ""⟩
        (some "AAAAAAAAAAAAAAAAAAAAAAAA")).2 ≠ none →
      (ScanWindow.scan_qr_code ⟨none, false, ""⟩
        (some "AAAAAAAAAAAAAAAAAAAAAAAA")).1.last_ticket =
        ScanWindow.ticketOf "AAAAAAAAAAAAAAAAAAAAAAAA") ∧
    (ScanWindow.reset_processing
        (⟨none, false, ""⟩ : ScanWindow.State)).last_ticket =
      (⟨none, false, ""⟩ : ScanWindow.State).last_ticket ∧
    ((⟨none, false, ""⟩ : ScanWindow.State).last_ticket =
        ScanWindow.ticketOf "AAAAAAAAAAAAAAAAAAAAAAAA" →
      (ScanWindow.scan_qr_code ⟨none, false, ""⟩
        (some "AAAAAAAAAAAAAAAAAAAAAAAA")).2 = none) :=
  C2_consecutive_dedup ⟨none, false, ""⟩ "AAAAAAAAAAAAAAAAAAAAAAAA"
    (by decide)

/-- C10.  A decoded payload shorter than 24 characters is emitted through
`qr_detected` without extracting a ticket: `last_ticket` is neither
consulted nor updated, so after the automatic 3-second `reset_processing`
(no scan restart, no ticket clearing) the very same short payload is
emitted again. -/
theorem C10_short_payload_no_dedup :
    ∀ (st : ScanWindow.State) (q : String),
    st.processing_qr = false → q.length < 24 →
    (ScanWindow.scan_qr_code st (some q) =
      ({ st with processing_qr := true, last_qr_code := some q },
       some q) ∧
     (ScanWindow.scan_qr_code st (some q)).1.last_ticket =
       st.last_ticket ∧
     (ScanWindow.scan_qr_code
        (ScanWindow.reset_processing
          (ScanWindow.scan_qr_code st (some q)).1) (some q)).2 =
       some q) := by
  intro st q hp hshort
  have hnot : ¬24 ≤ q.length := by omega
  refine ⟨?_, ?_, ?_⟩ <;>
    simp [ScanWindow.scan_qr_code, ScanWindow.reset_processing, hp, hnot]

/-- C10 witness: the 5-character payload `"SHORT"` on a window whose last
recorded ticket is `"t"`. -/
theorem C10_short_payload_no_dedup_witness :
    ScanWindow.scan_qr_code ⟨none, false, "t"⟩ (some "SHORT") =
      ({ (⟨none, false, "t"⟩ : ScanWindow.State) with
          processing_qr := true, last_qr_code := some "SHORT" },
       some "SHORT") ∧
    (ScanWindow.scan_qr_code ⟨none, false, "t"⟩
        (some "SHORT")).1.last_ticket =
      (⟨none, false, "t"⟩ : ScanWindow.State).last_ticket ∧
    (ScanWindow.scan_qr_code
       (ScanWindow.reset_processing
         (ScanWindow.scan_qr_code ⟨none, false, "t"⟩
           (some "SHORT")).1) (some "SHORT")).2 = some "SHORT" :=
  C10_short_payload_no_dedup ⟨none, false, "t"⟩ "SHORT" rfl (by decide)

/-- C3.  After recording exactly 3 regions that are all similar to their
average under the 15%-tolerance test of `_update_prediction`, and with the
newest record less than 3 seconds old, `get_predicted_roi` returns the
average of the three regions expanded by the 10% margin on each dimension;
after recording only 2 regions it returns none (at any query time). -/
theorem C3_roi_prediction :
    ∀ (p1 p2 p3 : SmartROIDetector.Pos) (now now2 : ℚ),
    SmartROIDetector.similarToAvg
      (SmartROIDetector.avgOf [p1, p2, p3]) p1 = true →
    SmartROIDetector.similarToAvg
      (SmartROIDetector.avgOf [p1, p2, p3]) p2 = true →
    SmartROIDetector.similarToAvg
      (SmartROIDetector.avgOf [p1, p2, p3]) p3 = true →
    now - p3.t < 3 →
    (SmartROIDetector.get_predicted_roi
       (SmartROIDetector.add_detection
         (SmartROIDetector.add_detection
           (SmartROIDetector.add_detection (SmartROIDetector.init 5 3)
             p1.x p1.y p1.w p1.h p1.t)
           p2.x p2.y p2.w p2.h p2.t)
         p3.x p3.y p3.w p3.h p3.t) now =
      some (SmartROIDetector.expandRoi
        (SmartROIDetector.avgOf [p1, p2, p3])) ∧
     SmartROIDetector.get_predicted_roi
       (SmartROIDetector.add_detection
         (SmartROIDetector.add_detection (SmartROIDetector.init 5 3)
           p1.x p1.y p1.w p1.h p1.t)
         p2.x p2.y p2.w p2.h p2.t) now2 = none) := by
  intro p1 p2 p3 now now2 h1 h2 h3 hnow
  constructor
  · simp [SmartROIDetector.add_detection, SmartROIDetector.init,
      SmartROIDetector.update_prediction, SmartROIDetector.get_predicted_roi,
      List.countP_cons, h1, h2, h3, hnow]
  · simp [SmartROIDetector.add_detection, SmartROIDetector.init,
      SmartROIDetector.update_prediction, SmartROIDetector.get_predicted_roi]

/-- C3 witness: three co-located 50x50 regions at (100, 100) recorded at
times 0, 1, 2 and queried at time 2. -/
theorem C3_roi_prediction_witness :
    (SmartROIDetector.get_predicted_roi
       (SmartROIDetector.add_detection
         (SmartROIDetector.add_detection
           (SmartROIDetector.add_detection (SmartROIDetector.init 5 3)
             (⟨100, 100, 50, 50, 0⟩ : SmartROIDetector.Pos).x
             (⟨100, 100, 50, 50, 0⟩ : SmartROIDetector.Pos).y
             (⟨100, 100, 50, 50, 0⟩ : SmartROIDetector.Pos).w
             (⟨100, 100, 50, 50, 0⟩ : SmartROIDetector.Pos).h
             (⟨100, 100, 50, 50, 0⟩ : SmartROIDetector.Pos).t)
           (⟨100, 100, 50, 50, 1⟩ : SmartROIDetector.Pos).x
           (⟨100, 100, 50, 50, 1⟩ : SmartROIDetector.Pos).y
           (⟨100, 100, 50, 50, 1⟩ : SmartROIDetector.Pos).w
           (⟨100, 100, 50, 50, 1⟩ : SmartROIDetector.Pos).h
           (⟨100, 100, 50, 50, 1⟩ : SmartROIDetector.Pos).t)
         (⟨100, 100, 50, 50, 2⟩ : SmartROIDetector.Pos).x
         (⟨100, 100, 50, 50, 2⟩ : SmartROIDetector.Pos).y
         (⟨100, 100, 50, 50, 2⟩ : SmartROIDetector.Pos).w
         (⟨100, 100, 50, 50, 2⟩ : SmartROIDetector.Pos).h
         (⟨100, 100, 50, 50, 2⟩ : SmartROIDetector.Pos).t) 2 =
      some (SmartROIDetector.expandRoi
        (SmartROIDetector.avgOf
          [⟨100, 100, 50, 50, 0⟩, ⟨100, 100, 50, 50, 1⟩,
           ⟨100, 100, 50, 50, 2⟩])) ∧
     SmartROIDetector.get_predicted_roi
       (SmartROIDetector.add_detection
         (SmartROIDetector.add_detection (SmartROIDetector.init 5 3)
           (⟨100, 100, 50, 50, 0⟩ : SmartROIDetector.Pos).x
           (⟨100, 100, 50, 50, 0⟩ : SmartROIDetector.Pos).y
           (⟨100, 100, 50, 50, 0⟩ : SmartROIDetector.Pos).w
           (⟨100, 100, 50, 50, 0⟩ : SmartROIDetector.Pos).h
           (⟨100, 100, 50, 50, 0⟩ : SmartROIDetector.Pos).t)
         (⟨100, 100, 50, 50, 1⟩ : SmartROIDetector.Pos).x
         (⟨100, 100, 50, 50, 1⟩ : SmartROIDetector.Pos).y
         (⟨100, 100, 50, 50, 1⟩ : SmartROIDetector.Pos).w
         (⟨100, 100, 50, 50, 1⟩ : SmartROIDetector.Pos).h
         (⟨100, 100, 50, 50, 1⟩ : SmartROIDetector.Pos).t) 0 = none) :=
  C3_roi_prediction ⟨100, 100, 50, 50, 0⟩ ⟨100, 100, 50, 50, 1⟩
    ⟨100, 100, 50, 50, 2⟩ 2 0
    (by simp [SmartROIDetector.similarToAvg, SmartROIDetector.avgOf]
        norm_num)
    (by simp [SmartROIDetector.similarToAvg, SmartROIDetector.avgOf]
        norm_num)
    (by simp [SmartROIDetector.similarToAvg, SmartROIDetector.avgOf]
        norm_num)
    (by norm_num)
